import Mathlib

/-!
Shallow embedding of the `xid-protocol/common` image store (`image.go`).

The Go code orchestrates a GridFS blob bucket and a Mongo metadata
collection.  We model the pair of backends as an explicit `StoreState`
(a list of blobs keyed by their GridFS id, a list of catalog records, and
a counter supplying fresh identifiers).  Backend calls that can fail for
environmental reasons (I/O errors and the like) take an injected
`Option GoErr` outcome; `none` means the backend behaves according to the
in-memory semantics.  Go's `(value, error)` returns are mirrored directly:
a result paired with an `Option GoErr`, or `Except GoErr` for lookups.
The store operation additionally records the trace of backend calls it
issues, so that "no call happened before the failure" is provable.
-/

namespace XidCommon

/-- Error values as the Go code produces them: the three sentinel errors of
`image.go`, the driver sentinels (`mongo.ErrNoDocuments`, GridFS
`ErrFileNotFound`, duplicate-key), opaque backend errors, and
`fmt.Errorf("...: %w", e)` wrapping. -/
inductive GoErr where
  | imageNotFound
  | invalidImageType
  | imageAlreadyExists
  | noDocuments
  | fileNotFound
  | duplicateKey
  | backend (msg : String)
  | wrapped (ctx : String) (e : GoErr)
deriving DecidableEq, Repr

/-- Backend calls issued by `StoreImageFromReader`, in order. -/
inductive Ev where
  | findByChecksum
  | blobOpen
  | blobWrite
  | catalogInsert
  | blobDelete
deriving DecidableEq, Repr

/-- `ImageMeta` of `image.go`: the catalog record.  `GridFSID` is modelled
as a `Nat`, `map[string]any` custom metadata as an association list with
opaque string values, timestamps as `Nat`. -/
structure ImageMeta where
  imageID : String
  gridfsID : Nat
  originalName : String
  contentType : String
  size : Int
  checksum : String
  tags : List String
  metadata : List (String × String)
  createdAt : Nat
  updatedAt : Nat
deriving DecidableEq, Repr

/-- The two backends plus the supply of fresh identifiers (`xid.New` /
`primitive.NewObjectID` are modelled by a counter: call `n` yields image id
`mkImageID n` and GridFS id `n`). -/
structure StoreState where
  blobs : List (Nat × List Nat)
  catalog : List ImageMeta
  nextId : Nat
deriving DecidableEq, Repr

/-- Image id produced by the `n`-th draw from the id generator. -/
def mkImageID (n : Nat) : String := "xid-" ++ toString n

/-- Fault injection for one `StoreImageFromReader` call: the outcome of the
checksum lookup backend call, the blob open, the blob write, the catalog
insert, and the compensating blob delete. -/
structure StoreEnv where
  findErr : Option GoErr
  openErr : Option GoErr
  writeErr : Option GoErr
  insertErr : Option GoErr
  deleteErr : Option GoErr
deriving DecidableEq, Repr

/-- All backend calls succeed. -/
def StoreEnv.healthy : StoreEnv := ⟨none, none, none, none, none⟩

/-- `isValidImageType` of `image.go`: membership in the fixed allow-list. -/
def validImageTypes : List String :=
  ["image/jpeg", "image/jpg", "image/png", "image/gif",
   "image/webp", "image/bmp", "image/tiff", "image/svg+xml"]

def isValidImageType (contentType : String) : Bool :=
  validImageTypes.contains contentType

/-- `FindOne {"checksum": c}` on the catalog: first record with the
checksum. -/
def findByChecksum (catalog : List ImageMeta) (checksum : String) :
    Option ImageMeta :=
  catalog.find? (fun m => m.checksum == checksum)

/-- `FindOne {"imageID": id}` on the catalog: first record with the id. -/
def findByID (catalog : List ImageMeta) (imageID : String) :
    Option ImageMeta :=
  catalog.find? (fun m => m.imageID == imageID)

/-- `GetImageByChecksum`: maps `mongo.ErrNoDocuments` to
`ErrImageNotFound`, wraps any other backend error. -/
def getImageByChecksumR (st : StoreState) (findErr : Option GoErr)
    (checksum : String) : Except GoErr ImageMeta :=
  match findErr with
  | some e => .error (.wrapped "failed to get image by checksum" e)
  | none =>
    match findByChecksum st.catalog checksum with
    | some m => .ok m
    | none => .error .imageNotFound

/-- `GetImageMeta`: maps `mongo.ErrNoDocuments` to `ErrImageNotFound`,
wraps any other backend error. -/
def getImageMetaR (st : StoreState) (findErr : Option GoErr)
    (imageID : String) : Except GoErr ImageMeta :=
  match findErr with
  | some e => .error (.wrapped "failed to get image metadata" e)
  | none =>
    match findByID st.catalog imageID with
    | some m => .ok m
    | none => .error .imageNotFound

/-- `StoreImageFromReader` of `image.go`.  `hash` models
`sha256.Sum256` rendered in hex, `detect` models
`http.DetectContentType`: both are functions of the byte content alone.
Returns the Go `(string, error)` pair, the post state, and the trace of
backend calls issued. -/
def StoreImageFromReader (st : StoreState) (env : StoreEnv) (now : Nat)
    (hash detect : List Nat → String) (data : List Nat) (filename : String)
    (tags : List String) (metadata : List (String × String)) :
    (String × Option GoErr) × StoreState × List Ev :=
  let contentType := detect data
  if isValidImageType contentType then
    let checksum := hash data
    match getImageByChecksumR st env.findErr checksum with
    | .ok existing =>
      ((existing.imageID, some .imageAlreadyExists), st, [.findByChecksum])
    | .error _ =>
      let imageID := mkImageID st.nextId
      let gridfsID := st.nextId
      let st1 : StoreState := { st with nextId := st.nextId + 1 }
      match env.openErr with
      | some e =>
        (("", some (.wrapped "failed to open upload stream" e)), st1,
          [.findByChecksum, .blobOpen])
      | none =>
        match env.writeErr with
        | some e =>
          (("", some (.wrapped "failed to write to GridFS" e)), st1,
            [.findByChecksum, .blobOpen, .blobWrite])
        | none =>
          let st2 : StoreState :=
            { st1 with blobs := st1.blobs ++ [(gridfsID, data)] }
          let meta : ImageMeta :=
            { imageID := imageID, gridfsID := gridfsID,
              originalName := filename, contentType := contentType,
              size := Int.ofNat data.length, checksum := checksum,
              tags := tags, metadata := metadata,
              createdAt := now, updatedAt := now }
          match env.insertErr with
          | some e =>
            let st3 : StoreState :=
              match env.deleteErr with
              | none =>
                { st2 with
                  blobs := st2.blobs.filter (fun b => b.1 != gridfsID) }
              | some _ => st2
            (("", some (.wrapped "failed to save metadata" e)), st3,
              [.findByChecksum, .blobOpen, .blobWrite, .catalogInsert,
                .blobDelete])
          | none =>
            ((imageID, none), { st2 with catalog := st2.catalog ++ [meta] },
              [.findByChecksum, .blobOpen, .blobWrite, .catalogInsert])
  else
    (("", some .invalidImageType), st, [])

/-- `bucket.OpenDownloadStream`: the blob's bytes if the key is present,
GridFS `ErrFileNotFound` otherwise. -/
def openDownloadStream (blobs : List (Nat × List Nat)) (k : Nat) :
    Except GoErr (List Nat) :=
  match blobs.find? (fun b => b.1 == k) with
  | some b => .ok b.2
  | none => .error .fileNotFound

/-- `GetImageData`: metadata lookup, then open the GridFS download stream;
the stream-open failure is wrapped.  The call issues no writes. -/
def GetImageData (st : StoreState) (findErr : Option GoErr)
    (imageID : String) : Except GoErr (List Nat × ImageMeta) :=
  match getImageMetaR st findErr imageID with
  | .error e => .error e
  | .ok m =>
    match openDownloadStream st.blobs m.gridfsID with
    | .error e => .error (.wrapped "failed to open download stream" e)
    | .ok data => .ok (data, m)

/-- Fault injection for one `DeleteImage` call. -/
structure DeleteEnv where
  findErr : Option GoErr
  blobDeleteErr : Option GoErr
  metaDeleteErr : Option GoErr
deriving DecidableEq, Repr

def DeleteEnv.healthy : DeleteEnv := ⟨none, none, none⟩

/-- `DeleteOne {"imageID": id}`: remove the first matching record. -/
def deleteFirstByID (imageID : String) : List ImageMeta → List ImageMeta
  | [] => []
  | m :: rest =>
    if m.imageID == imageID then rest
    else m :: deleteFirstByID imageID rest

/-- `DeleteImage` of `image.go`: metadata lookup, GridFS delete (GridFS
itself errors with `ErrFileNotFound` when the key is absent), then catalog
delete.  Returns the Go error slot and the post state. -/
def DeleteImage (st : StoreState) (env : DeleteEnv) (imageID : String) :
    Option GoErr × StoreState :=
  match getImageMetaR st env.findErr imageID with
  | .error e => (some e, st)
  | .ok m =>
    let blobResult : Option GoErr :=
      match env.blobDeleteErr with
      | some e => some e
      | none =>
        if st.blobs.any (fun b => b.1 == m.gridfsID) then none
        else some .fileNotFound
    match blobResult with
    | some e => (some (.wrapped "failed to delete from GridFS" e), st)
    | none =>
      let st1 : StoreState :=
        { st with blobs := st.blobs.filter (fun b => b.1 != m.gridfsID) }
      match env.metaDeleteErr with
      | some e => (some (.wrapped "failed to delete metadata" e), st1)
      | none =>
        (none, { st1 with catalog := deleteFirstByID imageID st1.catalog })

/-- The Mongo filter of `ListImages`: no restriction when `tags` is empty,
otherwise `{"tags": {"$in": tags}}` — the record matches when its `tags`
array shares an element with the filter list. -/
def listFilter (tags : List String) (m : ImageMeta) : Bool :=
  if tags.length > 0 then m.tags.any (fun t => tags.contains t) else true

/-- The sort key of `ListImages`: `createdAt` descending. -/
def createdDesc (a b : ImageMeta) : Prop := b.createdAt ≤ a.createdAt

instance : DecidableRel createdDesc := fun a b =>
  inferInstanceAs (Decidable (b.createdAt ≤ a.createdAt))

instance : IsTotal ImageMeta createdDesc :=
  ⟨fun a b => (Nat.le_total b.createdAt a.createdAt).imp id id⟩

instance : IsTrans ImageMeta createdDesc :=
  ⟨fun _ _ _ h1 h2 => Nat.le_trans h2 h1⟩

/-- `ListImages` of `image.go`: filter by tags, sort by `createdAt`
descending, then (Mongo semantics of `SetSkip`/`SetLimit`) skip `offset`
and cap at `limit`, each only when positive.  Backend errors are not
modelled: the claims about listing concern the healthy result. -/
def ListImages (st : StoreState) (tags : List String)
    (limit offset : Int) : List ImageMeta :=
  let filtered := st.catalog.filter (listFilter tags)
  let sorted := List.insertionSort createdDesc filtered
  let skipped := if 0 < offset then sorted.drop offset.toNat else sorted
  if 0 < limit then skipped.take limit.toNat else skipped

/-- `UpdateOne {"imageID": id}` with `$set {tags, updatedAt}`: rewrite the
first matching record. -/
def setTagsFirst (imageID : String) (tags : List String) (now : Nat) :
    List ImageMeta → List ImageMeta
  | [] => []
  | m :: rest =>
    if m.imageID == imageID then
      { m with tags := tags, updatedAt := now } :: rest
    else m :: setTagsFirst imageID tags now rest

/-- `UpdateOne {"imageID": id}` with `$set {metadata, updatedAt}`. -/
def setMetadataFirst (imageID : String) (metadata : List (String × String))
    (now : Nat) : List ImageMeta → List ImageMeta
  | [] => []
  | m :: rest =>
    if m.imageID == imageID then
      { m with metadata := metadata, updatedAt := now } :: rest
    else m :: setMetadataFirst imageID metadata now rest

/-- `UpdateImageTags` of `image.go`: backend error is wrapped; a zero
matched count yields `ErrImageNotFound`. -/
def UpdateImageTags (st : StoreState) (updateErr : Option GoErr)
    (now : Nat) (imageID : String) (tags : List String) :
    Option GoErr × StoreState :=
  match updateErr with
  | some e => (some (.wrapped "failed to update tags" e), st)
  | none =>
    if st.catalog.any (fun m => m.imageID == imageID) then
      (none, { st with catalog := setTagsFirst imageID tags now st.catalog })
    else (some .imageNotFound, st)

/-- `UpdateImageMetadata` of `image.go`. -/
def UpdateImageMetadata (st : StoreState) (updateErr : Option GoErr)
    (now : Nat) (imageID : String) (metadata : List (String × String)) :
    Option GoErr × StoreState :=
  match updateErr with
  | some e => (some (.wrapped "failed to update metadata" e), st)
  | none =>
    if st.catalog.any (fun m => m.imageID == imageID) then
      (none,
        { st with catalog := setMetadataFirst imageID metadata now st.catalog })
    else (some .imageNotFound, st)

/-- A catalog record references GridFS key `k` (the sweep's
`CountDocuments {"gridfsID": k} > 0`). -/
def referenced (catalog : List ImageMeta) (k : Nat) : Bool :=
  catalog.any (fun m => m.gridfsID == k)

/-- Per-key fault injection for one `CleanupOrphanedFiles` call: the
outcome of the `CountDocuments` call and of the GridFS delete for each
enumerated key. -/
structure CleanupEnv where
  countErr : Nat → Option GoErr
  deleteErr : Nat → Option GoErr

def CleanupEnv.healthy : CleanupEnv := ⟨fun _ => none, fun _ => none⟩

/-- The cursor loop of `CleanupOrphanedFiles` over the enumerated GridFS
files: a failed count skips the file (`continue`), a referenced file is
kept, a failed delete is logged and the file stays, a successful delete of
an unreferenced file increments the counter. -/
def cleanupRun (catalog : List ImageMeta) (env : CleanupEnv) :
    List (Nat × List Nat) → Nat × List (Nat × List Nat)
  | [] => (0, [])
  | b :: rest =>
    let (n, kept) := cleanupRun catalog env rest
    match env.countErr b.1 with
    | some _ => (n, b :: kept)
    | none =>
      if referenced catalog b.1 then (n, b :: kept)
      else
        match env.deleteErr b.1 with
        | some _ => (n, b :: kept)
        | none => (n + 1, kept)

/-- `CleanupOrphanedFiles` of `image.go`: sweep the blob store, returning
the count of orphans removed and the post state. -/
def CleanupOrphanedFiles (st : StoreState) (env : CleanupEnv) :
    Nat × StoreState :=
  let (n, kept) := cleanupRun st.catalog env st.blobs
  (n, { st with blobs := kept })

/-! ### Helper lemmas -/

/-- The record a fresh, fully healthy store call inserts. -/
def freshMeta (st : StoreState) (now : Nat) (hash detect : List Nat → String)
    (data : List Nat) (filename : String) (tags : List String)
    (metadata : List (String × String)) : ImageMeta :=
  { imageID := mkImageID st.nextId, gridfsID := st.nextId,
    originalName := filename, contentType := detect data,
    size := Int.ofNat data.length, checksum := hash data,
    tags := tags, metadata := metadata, createdAt := now, updatedAt := now }

/-- A fully healthy store call on content whose checksum is not yet in the
catalog: new id returned, blob appended, record appended. -/
lemma store_healthy_fresh (st : StoreState) (now : Nat)
    (hash detect : List Nat → String) (data : List Nat) (filename : String)
    (tags : List String) (metadata : List (String × String))
    (hvalid : isValidImageType (detect data) = true)
    (hfresh : findByChecksum st.catalog (hash data) = none) :
    StoreImageFromReader st .healthy now hash detect data filename tags
        metadata =
      ((mkImageID st.nextId, none),
        { blobs := st.blobs ++ [(st.nextId, data)],
          catalog :=
            st.catalog ++ [freshMeta st now hash detect data filename tags
              metadata],
          nextId := st.nextId + 1 },
        [.findByChecksum, .blobOpen, .blobWrite, .catalogInsert]) := by
  unfold StoreImageFromReader getImageByChecksumR StoreEnv.healthy freshMeta
  simp [hvalid, hfresh]

/-- Claim C1: storing the same payload twice yields the same `assetID`
both times; the second call returns the existing record's id together with
the `AlreadyExists` signal (a soft success, not a bare error) and leaves
the state unchanged. -/
theorem storing_twice_same_id_alreadyExists
    (st : StoreState) (now1 now2 : Nat) (hash detect : List Nat → String)
    (data : List Nat) (fn1 fn2 : String) (tg1 tg2 : List String)
    (md1 md2 : List (String × String))
    (hvalid : isValidImageType (detect data) = true)
    (hfresh : findByChecksum st.catalog (hash data) = none) :
    (StoreImageFromReader st .healthy now1 hash detect data fn1 tg1 md1).1
        = (mkImageID st.nextId, none) ∧
    (StoreImageFromReader
        (StoreImageFromReader st .healthy now1 hash detect data fn1 tg1
          md1).2.1
        .healthy now2 hash detect data fn2 tg2 md2).1
        = (mkImageID st.nextId, some .imageAlreadyExists) ∧
    (StoreImageFromReader
        (StoreImageFromReader st .healthy now1 hash detect data fn1 tg1
          md1).2.1
        .healthy now2 hash detect data fn2 tg2 md2).2.1
        = (StoreImageFromReader st .healthy now1 hash detect data fn1 tg1
          md1).2.1 := by
  rw [store_healthy_fresh st now1 hash detect data fn1 tg1 md1 hvalid hfresh]
  have hfind : findByChecksum
      (st.catalog ++ [freshMeta st now1 hash detect data fn1 tg1 md1])
      (hash data) = some (freshMeta st now1 hash detect data fn1 tg1 md1) := by
    unfold findByChecksum at hfresh ⊢
    simp [List.find?_append, hfresh, freshMeta]
  refine ⟨rfl, ?_, ?_⟩ <;>
    · unfold StoreImageFromReader getImageByChecksumR StoreEnv.healthy
      simp [hvalid, hfind]
      try rfl

/-- Concrete instance of `storing_twice_same_id_alreadyExists`: payload
`[7]` stored twice from the empty state. -/
theorem storing_twice_same_id_alreadyExists_witness :
    isValidImageType ((fun _ : List Nat => "image/png") [7]) = true ∧
    findByChecksum (StoreState.mk [] [] 0).catalog
      ((fun d : List Nat => "sha-" ++ toString d.length) [7]) = none ∧
    (StoreImageFromReader (StoreState.mk [] [] 0) .healthy 1
        (fun d : List Nat => "sha-" ++ toString d.length)
        (fun _ : List Nat => "image/png") [7] "a.png" [] []).1
      = (mkImageID 0, none) ∧
    (StoreImageFromReader
        (StoreImageFromReader (StoreState.mk [] [] 0) .healthy 1
          (fun d : List Nat => "sha-" ++ toString d.length)
          (fun _ : List Nat => "image/png") [7] "a.png" [] []).2.1
        .healthy 2 (fun d : List Nat => "sha-" ++ toString d.length)
        (fun _ : List Nat => "image/png") [7] "b.png" [] []).1
      = (mkImageID 0, some .imageAlreadyExists) := by
  have h := storing_twice_same_id_alreadyExists (StoreState.mk [] [] 0) 1 2
    (fun d : List Nat => "sha-" ++ toString d.length)
    (fun _ : List Nat => "image/png") [7] "a.png" "b.png" [] [] [] []
    (by decide) (by rfl)
  exact ⟨by decide, by rfl, h.1, h.2.1⟩

/-- Claim C2: when the catalog insert fails, the store issues a
compensating delete of the just-written blob (the trace ends with the
delete call, and when that delete succeeds the blob store is back to its
pre-call content), returns the wrapped catalog-insert error whatever the
outcome of the compensating delete, and leaves no catalog record. -/
theorem store_insert_failure_compensates
    (st : StoreState) (now : Nat) (hash detect : List Nat → String)
    (data : List Nat) (fn : String) (tg : List String)
    (md : List (String × String)) (e : GoErr) (denv : Option GoErr)
    (hvalid : isValidImageType (detect data) = true)
    (hfresh : findByChecksum st.catalog (hash data) = none)
    (hkey : ∀ b ∈ st.blobs, b.1 ≠ st.nextId) :
    (StoreImageFromReader st ⟨none, none, none, some e, denv⟩ now hash detect
        data fn tg md).1
      = ("", some (.wrapped "failed to save metadata" e)) ∧
    (StoreImageFromReader st ⟨none, none, none, some e, denv⟩ now hash detect
        data fn tg md).2.1.catalog = st.catalog ∧
    (denv = none →
      (StoreImageFromReader st ⟨none, none, none, some e, denv⟩ now hash
          detect data fn tg md).2.1.blobs = st.blobs) ∧
    (StoreImageFromReader st ⟨none, none, none, some e, denv⟩ now hash detect
        data fn tg md).2.2
      = [.findByChecksum, .blobOpen, .blobWrite, .catalogInsert,
          .blobDelete] := by
  unfold StoreImageFromReader getImageByChecksumR
  simp [hvalid, hfresh]
  refine ⟨?_, ?_⟩
  · cases denv <;> rfl
  · intro hd
    subst hd
    simp
    intro a b hb
    exact hkey (a, b) hb

/-- Concrete instance of `store_insert_failure_compensates`: insert fails
with a backend error while storing `[7]` into the empty state; the blob
store is unchanged afterwards and the insert error is returned. -/
theorem store_insert_failure_compensates_witness :
    isValidImageType ((fun _ : List Nat => "image/png") [7]) = true ∧
    findByChecksum (StoreState.mk [] [] 0).catalog
      ((fun d : List Nat => "sha-" ++ toString d.length) [7]) = none ∧
    (∀ b ∈ (StoreState.mk [] ([] : List ImageMeta) 0).blobs, b.1 ≠ 0) ∧
    (StoreImageFromReader (StoreState.mk [] [] 0)
        ⟨none, none, none, some (.backend "boom"), none⟩ 1
        (fun d : List Nat => "sha-" ++ toString d.length)
        (fun _ : List Nat => "image/png") [7] "a.png" [] []).1
      = ("", some (.wrapped "failed to save metadata" (.backend "boom"))) ∧
    (StoreImageFromReader (StoreState.mk [] [] 0)
        ⟨none, none, none, some (.backend "boom"), none⟩ 1
        (fun d : List Nat => "sha-" ++ toString d.length)
        (fun _ : List Nat => "image/png") [7] "a.png" [] []).2.1.blobs
      = [] := by
  have h := store_insert_failure_compensates (StoreState.mk [] [] 0) 1
    (fun d : List Nat => "sha-" ++ toString d.length)
    (fun _ : List Nat => "image/png") [7] "a.png" [] []
    (.backend "boom") none (by decide) (by rfl) (by simp)
  exact ⟨by decide, by rfl, by simp, h.1, h.2.2.1 rfl⟩

/-- Claim C3: delete first looks up the record — an absent `assetID`
fails with `NotFound` and changes nothing; the blob is deleted before the
catalog record — a failing blob delete aborts the call with the whole
state (record included) intact; on success the blob and then the record
are removed. -/
theorem delete_blob_before_record (st : StoreState) (id : String) :
    (findByID st.catalog id = none →
      DeleteImage st .healthy id = (some .imageNotFound, st)) ∧
    (∀ m, findByID st.catalog id = some m → ∀ e : GoErr,
      DeleteImage st ⟨none, some e, none⟩ id
        = (some (.wrapped "failed to delete from GridFS" e), st)) ∧
    (∀ m, findByID st.catalog id = some m →
      st.blobs.any (fun b => b.1 == m.gridfsID) = true →
      DeleteImage st .healthy id
        = (none,
            { blobs := st.blobs.filter (fun b => b.1 != m.gridfsID),
              catalog := deleteFirstByID id st.catalog,
              nextId := st.nextId })) := by
  refine ⟨?_, ?_, ?_⟩
  · intro hnone
    unfold DeleteImage getImageMetaR DeleteEnv.healthy
    simp [hnone]
  · intro m hm e
    unfold DeleteImage getImageMetaR
    simp [hm]
  · intro m hm hblob
    unfold DeleteImage getImageMetaR DeleteEnv.healthy
    simp [hm, hblob]

/-- Concrete instance of `delete_blob_before_record` on a one-record
state: missing id gives `NotFound` without change, a failing blob delete
leaves the record intact, and a healthy delete removes blob and record. -/
theorem delete_blob_before_record_witness :
    (DeleteImage
        (StoreState.mk [(0, [7])]
          [ImageMeta.mk "xid-0" 0 "a.png" "image/png" 1 "c" [] [] 1 1] 1)
        .healthy "missing")
      = (some .imageNotFound,
          StoreState.mk [(0, [7])]
            [ImageMeta.mk "xid-0" 0 "a.png" "image/png" 1 "c" [] [] 1 1] 1) ∧
    (DeleteImage
        (StoreState.mk [(0, [7])]
          [ImageMeta.mk "xid-0" 0 "a.png" "image/png" 1 "c" [] [] 1 1] 1)
        ⟨none, some (.backend "io"), none⟩ "xid-0")
      = (some (.wrapped "failed to delete from GridFS" (.backend "io")),
          StoreState.mk [(0, [7])]
            [ImageMeta.mk "xid-0" 0 "a.png" "image/png" 1 "c" [] [] 1 1] 1) ∧
    (DeleteImage
        (StoreState.mk [(0, [7])]
          [ImageMeta.mk "xid-0" 0 "a.png" "image/png" 1 "c" [] [] 1 1] 1)
        .healthy "xid-0")
      = (none, StoreState.mk [] [] 1) := by
  have h := delete_blob_before_record
    (StoreState.mk [(0, [7])]
      [ImageMeta.mk "xid-0" 0 "a.png" "image/png" 1 "c" [] [] 1 1] 1)
  refine ⟨?_, ?_, ?_⟩
  · exact (h "missing").1 (by rfl)
  · exact (h "xid-0").2.1
      (ImageMeta.mk "xid-0" 0 "a.png" "image/png" 1 "c" [] [] 1 1) (by rfl)
      (.backend "io")
  · exact (h "xid-0").2.2
      (ImageMeta.mk "xid-0" 0 "a.png" "image/png" 1 "c" [] [] 1 1) (by rfl)
      (by decide)

/-- Claim C4, counterexample: the catalog holds a record (`xid-0`) for the
checksum of `[7]`, the duplicate-check lookup fails with a backend error,
and the insert then fails with the uniqueness violation.  The claim says
the call returns the existing id `xid-0` with the `AlreadyExists` signal;
the code instead returns the wrapped insert error as a fatal failure. -/
theorem store_duplicate_key_not_soft_success_cex :
    (StoreImageFromReader
        (StoreState.mk [(0, [7])]
          [ImageMeta.mk "xid-0" 0 "a.png" "image/png" 1 "sha-1" [] [] 1 1] 1)
        ⟨some (.backend "net"), none, none, some .duplicateKey, none⟩ 2
        (fun d : List Nat => "sha-" ++ toString d.length)
        (fun _ : List Nat => "image/png") [7] "b.png" [] []).1
      ≠ ("xid-0", some .imageAlreadyExists) ∧
    (StoreImageFromReader
        (StoreState.mk [(0, [7])]
          [ImageMeta.mk "xid-0" 0 "a.png" "image/png" 1 "sha-1" [] [] 1 1] 1)
        ⟨some (.backend "net"), none, none, some .duplicateKey, none⟩ 2
        (fun d : List Nat => "sha-" ++ toString d.length)
        (fun _ : List Nat => "image/png") [7] "b.png" [] []).1
      = ("", some (.wrapped "failed to save metadata" .duplicateKey)) := by
  constructor
  · decide
  · rfl

/-- Claim C4 as amended: a uniqueness violation on the catalog insert is
treated like any other insert failure — the call returns the wrapped
insert error and never the `AlreadyExists` soft success. -/
theorem store_duplicate_key_fatal
    (st : StoreState) (now : Nat) (hash detect : List Nat → String)
    (data : List Nat) (fn : String) (tg : List String)
    (md : List (String × String)) (fe denv : Option GoErr)
    (hvalid : isValidImageType (detect data) = true)
    (hmiss : fe = none → findByChecksum st.catalog (hash data) = none) :
    (StoreImageFromReader st ⟨fe, none, none, some .duplicateKey, denv⟩ now
        hash detect data fn tg md).1
      = ("", some (.wrapped "failed to save metadata" .duplicateKey)) ∧
    ∀ id : String,
      (StoreImageFromReader st ⟨fe, none, none, some .duplicateKey, denv⟩ now
          hash detect data fn tg md).1
        ≠ (id, some .imageAlreadyExists) := by
  have hres : (StoreImageFromReader st
      ⟨fe, none, none, some .duplicateKey, denv⟩ now hash detect data fn tg
      md).1 = ("", some (.wrapped "failed to save metadata" .duplicateKey)) := by
    unfold StoreImageFromReader getImageByChecksumR
    cases fe with
    | none => simp [hvalid, hmiss rfl]
    | some e0 => simp [hvalid]
  refine ⟨hres, fun id => ?_⟩
  rw [hres]
  simp

/-- Concrete instance of `store_duplicate_key_fatal` in the fresh-content
case. -/
theorem store_duplicate_key_fatal_witness :
    isValidImageType ((fun _ : List Nat => "image/png") [7]) = true ∧
    findByChecksum (StoreState.mk [] [] 0).catalog
      ((fun d : List Nat => "sha-" ++ toString d.length) [7]) = none ∧
    (StoreImageFromReader (StoreState.mk [] [] 0)
        ⟨none, none, none, some .duplicateKey, none⟩ 1
        (fun d : List Nat => "sha-" ++ toString d.length)
        (fun _ : List Nat => "image/png") [7] "a.png" [] []).1
      = ("", some (.wrapped "failed to save metadata" .duplicateKey)) := by
  have h := store_duplicate_key_fatal (StoreState.mk [] [] 0) 1
    (fun d : List Nat => "sha-" ++ toString d.length)
    (fun _ : List Nat => "image/png") [7] "a.png" [] [] none none
    (by decide) (fun _ => by rfl)
  exact ⟨by decide, by rfl, h.1⟩

/-- A blob survives the sweep iff its count call failed, or a catalog
record references it, or its delete failed. -/
def keepP (catalog : List ImageMeta) (env : CleanupEnv)
    (b : Nat × List Nat) : Bool :=
  (env.countErr b.1).isSome || referenced catalog b.1 ||
    (env.deleteErr b.1).isSome

/-- Closed form of the sweep loop: the kept blobs are the `keepP` filter
of the input, and the counter counts the rest. -/
lemma cleanupRun_eq (catalog : List ImageMeta) (env : CleanupEnv) :
    ∀ blobs : List (Nat × List Nat),
      cleanupRun catalog env blobs
        = ((blobs.filter fun b => !(keepP catalog env b)).length,
            blobs.filter (keepP catalog env))
  | [] => rfl
  | b :: rest => by
    have ih := cleanupRun_eq catalog env rest
    unfold cleanupRun
    rw [ih]
    unfold keepP
    cases hc : env.countErr b.1 with
    | some e => simp [hc, List.filter_cons]
    | none =>
      cases hr : referenced catalog b.1 with
      | true => simp [hc, hr, List.filter_cons]
      | false =>
        cases hd : env.deleteErr b.1 with
        | some e => simp [hc, hr, hd, List.filter_cons]
        | none => simp [hc, hr, hd, List.filter_cons]

/-- The sweep never touches the catalog. -/
lemma cleanup_catalog_eq (st : StoreState) (env : CleanupEnv) :
    (CleanupOrphanedFiles st env).2.catalog = st.catalog := by
  unfold CleanupOrphanedFiles
  rw [cleanupRun_eq]

/-- Claim C5: the sweep never deletes a catalog record; under any fault
pattern it deletes from the blob store exactly the unreferenced keys whose
count and delete calls succeeded (continuing past per-item errors) and
reports exactly the number of orphans it removed; with healthy backends it
deletes exactly the keys with zero referencing records. -/
theorem cleanup_removes_exactly_orphans (st : StoreState) (env : CleanupEnv) :
    (CleanupOrphanedFiles st env).2.catalog = st.catalog ∧
    (CleanupOrphanedFiles st env).2.blobs
      = st.blobs.filter (keepP st.catalog env) ∧
    (CleanupOrphanedFiles st env).1
      = (st.blobs.filter fun b => !(keepP st.catalog env b)).length ∧
    (CleanupOrphanedFiles st .healthy).2.blobs
      = st.blobs.filter (fun b => referenced st.catalog b.1) ∧
    (CleanupOrphanedFiles st .healthy).1
      = (st.blobs.filter fun b => !(referenced st.catalog b.1)).length := by
  have hp : keepP st.catalog CleanupEnv.healthy
      = fun b => referenced st.catalog b.1 := by
    funext b
    simp [keepP, CleanupEnv.healthy]
  have hn : (fun b => !keepP st.catalog CleanupEnv.healthy b)
      = fun b => !referenced st.catalog b.1 := by
    funext b
    simp [keepP, CleanupEnv.healthy]
  refine ⟨cleanup_catalog_eq st env, ?_, ?_, ?_, ?_⟩
  · unfold CleanupOrphanedFiles
    rw [cleanupRun_eq]
  · unfold CleanupOrphanedFiles
    rw [cleanupRun_eq]
  · unfold CleanupOrphanedFiles
    rw [cleanupRun_eq, hp]
  · unfold CleanupOrphanedFiles
    rw [cleanupRun_eq, hn]

/-- Claim C6: when the media type inferred from the byte content (the
claim holds for every display name, tag list and custom metadata the
caller supplies — only `detect data` decides) is outside the allow-list,
the store fails with `InvalidAssetType`, the state is untouched and the
trace is empty: no blob write, no checksum lookup, no catalog insert was
issued. -/
theorem store_invalid_type_no_side_effect
    (st : StoreState) (env : StoreEnv) (now : Nat)
    (hash detect : List Nat → String) (data : List Nat) (fn : String)
    (tg : List String) (md : List (String × String))
    (hinvalid : isValidImageType (detect data) = false) :
    StoreImageFromReader st env now hash detect data fn tg md
      = (("", some .invalidImageType), st, []) := by
  unfold StoreImageFromReader
  simp [hinvalid]

/-- Concrete instance of `store_invalid_type_no_side_effect`: content
sniffed as `text/plain` is rejected with no effect on a one-record
state. -/
theorem store_invalid_type_no_side_effect_witness :
    isValidImageType ((fun _ : List Nat => "text/plain") [7]) = false ∧
    StoreImageFromReader
        (StoreState.mk [(0, [7])]
          [ImageMeta.mk "xid-0" 0 "a.png" "image/png" 1 "sha-1" [] [] 1 1] 1)
        ⟨some (.backend "net"), none, none, some .duplicateKey, none⟩ 2
        (fun d : List Nat => "sha-" ++ toString d.length)
        (fun _ : List Nat => "text/plain") [7] "b.txt" ["t"] []
      = (("", some .invalidImageType),
          StoreState.mk [(0, [7])]
            [ImageMeta.mk "xid-0" 0 "a.png" "image/png" 1 "sha-1" [] [] 1 1] 1,
          []) := by
  refine ⟨by decide, ?_⟩
  exact store_invalid_type_no_side_effect
    (StoreState.mk [(0, [7])]
      [ImageMeta.mk "xid-0" 0 "a.png" "image/png" 1 "sha-1" [] [] 1 1] 1)
    ⟨some (.backend "net"), none, none, some .duplicateKey, none⟩ 2
    (fun d : List Nat => "sha-" ++ toString d.length)
    (fun _ : List Nat => "text/plain") [7] "b.txt" ["t"] [] (by decide)

/-- Claim C7: when a catalog record exists for an id but its blob is
absent, `GetImageData` surfaces the wrapped stream-open error — an error
value distinct from `NotFound` — and the condition is never auto-repaired:
the read issues no write (it is a pure function of the state), and under
every fault pattern the sweep leaves the catalog, and in particular this
record, in place. -/
theorem read_missing_blob_integrity (st : StoreState) (id : String)
    (m : ImageMeta) (hm : findByID st.catalog id = some m)
    (hblob : st.blobs.find? (fun b => b.1 == m.gridfsID) = none) :
    GetImageData st none id
      = .error (.wrapped "failed to open download stream" .fileNotFound) ∧
    (∀ e, GetImageData st none id = .error e → e ≠ .imageNotFound) ∧
    (∀ env : CleanupEnv,
      findByID (CleanupOrphanedFiles st env).2.catalog id = some m) := by
  have hread : GetImageData st none id
      = .error (.wrapped "failed to open download stream" .fileNotFound) := by
    unfold GetImageData getImageMetaR openDownloadStream
    simp [hm, hblob]
  refine ⟨hread, ?_, ?_⟩
  · intro e he
    rw [hread] at he
    cases he
    simp
  · intro env
    rw [cleanup_catalog_eq]
    exact hm

/-- Concrete instance of `read_missing_blob_integrity`: a record whose
GridFS key `0` has no blob. -/
theorem read_missing_blob_integrity_witness :
    findByID
      (StoreState.mk []
        [ImageMeta.mk "xid-0" 0 "a.png" "image/png" 1 "sha-1" [] [] 1 1]
        1).catalog "xid-0"
      = some (ImageMeta.mk "xid-0" 0 "a.png" "image/png" 1 "sha-1" [] [] 1 1) ∧
    GetImageData
        (StoreState.mk []
          [ImageMeta.mk "xid-0" 0 "a.png" "image/png" 1 "sha-1" [] [] 1 1]
          1) none "xid-0"
      = .error (.wrapped "failed to open download stream" .fileNotFound) ∧
    findByID
      (CleanupOrphanedFiles
        (StoreState.mk []
          [ImageMeta.mk "xid-0" 0 "a.png" "image/png" 1 "sha-1" [] [] 1 1]
          1) .healthy).2.catalog "xid-0"
      = some (ImageMeta.mk "xid-0" 0 "a.png" "image/png" 1 "sha-1" [] [] 1 1) := by
  have h := read_missing_blob_integrity
    (StoreState.mk []
      [ImageMeta.mk "xid-0" 0 "a.png" "image/png" 1 "sha-1" [] [] 1 1] 1)
    "xid-0" (ImageMeta.mk "xid-0" 0 "a.png" "image/png" 1 "sha-1" [] [] 1 1)
    (by rfl) (by rfl)
  exact ⟨by rfl, h.1, h.2.2 .healthy⟩

/-- Claim C8: `ListImages` returns exactly the records selected by the
tag filter — the unpaginated call is a permutation of the filtered
catalog, and the filter holds of a record precisely when the tag filter is
empty or intersects the record's tags — the output is ordered by
`createdAt` descending, and offset and limit are applied after that
ordering: the paginated call is the drop/take of the unpaginated one. -/
theorem list_filter_sort_paginate (st : StoreState) (tags : List String)
    (limit offset : Int) :
    (ListImages st tags limit offset).Sorted createdDesc ∧
    (ListImages st tags 0 0).Perm (st.catalog.filter (listFilter tags)) ∧
    (∀ m : ImageMeta,
      listFilter tags m = true ↔ (tags = [] ∨ ∃ t ∈ m.tags, t ∈ tags)) ∧
    ListImages st tags limit offset
      = (if 0 < limit
          then ((ListImages st tags 0 0).drop offset.toNat).take limit.toNat
          else (ListImages st tags 0 0).drop offset.toNat) := by
  have hs := List.sorted_insertionSort createdDesc
    (st.catalog.filter (listFilter tags))
  have hbase : ListImages st tags 0 0
      = List.insertionSort createdDesc (st.catalog.filter (listFilter tags)) := by
    unfold ListImages
    simp
  refine ⟨?_, ?_, ?_, ?_⟩
  · unfold ListImages
    dsimp only
    split_ifs <;>
      first
      | exact (hs.sublist (List.drop_sublist _ _)).sublist
          (List.take_sublist _ _)
      | exact hs.sublist (List.take_sublist _ _)
      | exact hs.sublist (List.drop_sublist _ _)
      | exact hs
  · rw [hbase]
    exact List.perm_insertionSort createdDesc _
  · intro m
    unfold listFilter
    rcases tags with _ | ⟨t0, rest⟩
    · simp
    · simp [List.any_eq_true]
  · rw [hbase]
    unfold ListImages
    dsimp only
    rcases lt_or_le 0 offset with ho | ho
    · simp [ho]
    · have h0 : ¬ 0 < offset := not_lt.mpr ho
      have ht : offset.toNat = 0 := Int.toNat_of_nonpos ho
      simp [h0, ht]

/-- Pointwise description of `setTagsFirst`: each output record is the
input record unchanged, or (when it carries the targeted id) the input
record with only `tags` and `updatedAt` rewritten. -/
lemma setTagsFirst_forall₂ (id : String) (tags : List String) (now : Nat) :
    ∀ catalog : List ImageMeta,
      List.Forall₂ (fun m m' =>
          m' = m ∨
          (m.imageID = id ∧ m'.imageID = m.imageID ∧
            m'.gridfsID = m.gridfsID ∧ m'.originalName = m.originalName ∧
            m'.contentType = m.contentType ∧ m'.size = m.size ∧
            m'.checksum = m.checksum ∧ m'.metadata = m.metadata ∧
            m'.createdAt = m.createdAt ∧ m'.tags = tags ∧
            m'.updatedAt = now))
        catalog (setTagsFirst id tags now catalog)
  | [] => .nil
  | m :: rest => by
    unfold setTagsFirst
    by_cases h : (m.imageID == id) = true
    · simp only [h, if_true]
      refine .cons (Or.inr ⟨eq_of_beq h, rfl, rfl, rfl, rfl, rfl, rfl, rfl,
        rfl, rfl, rfl⟩) ?_
      exact (List.forall₂_same).mpr (fun x _ => Or.inl rfl)
    · simp only [h, if_false]
      exact .cons (Or.inl rfl) (setTagsFirst_forall₂ id tags now rest)

/-- Pointwise description of `setMetadataFirst`. -/
lemma setMetadataFirst_forall₂ (id : String)
    (md : List (String × String)) (now : Nat) :
    ∀ catalog : List ImageMeta,
      List.Forall₂ (fun m m' =>
          m' = m ∨
          (m.imageID = id ∧ m'.imageID = m.imageID ∧
            m'.gridfsID = m.gridfsID ∧ m'.originalName = m.originalName ∧
            m'.contentType = m.contentType ∧ m'.size = m.size ∧
            m'.checksum = m.checksum ∧ m'.tags = m.tags ∧
            m'.createdAt = m.createdAt ∧ m'.metadata = md ∧
            m'.updatedAt = now))
        catalog (setMetadataFirst id md now catalog)
  | [] => .nil
  | m :: rest => by
    unfold setMetadataFirst
    by_cases h : (m.imageID == id) = true
    · simp only [h, if_true]
      refine .cons (Or.inr ⟨eq_of_beq h, rfl, rfl, rfl, rfl, rfl, rfl, rfl,
        rfl, rfl, rfl⟩) ?_
      exact (List.forall₂_same).mpr (fun x _ => Or.inl rfl)
    · simp only [h, if_false]
      exact .cons (Or.inl rfl) (setMetadataFirst_forall₂ id md now rest)

/-- Claim C9: updating tags or custom metadata on a missing id fails with
`NotFound` and changes nothing; otherwise the blob store and id counter
are untouched and every catalog record is either unchanged or — when it
carries the targeted id — changed only in the targeted field and
`updatedAt`, with `imageID`, `gridfsID`, `originalName`, `contentType`,
`size`, `checksum` and `createdAt` preserved. -/
theorem update_only_targeted_field (st : StoreState) (now : Nat)
    (id : String) (tags : List String) (md : List (String × String)) :
    (st.catalog.any (fun m => m.imageID == id) = false →
      UpdateImageTags st none now id tags = (some .imageNotFound, st) ∧
      UpdateImageMetadata st none now id md = (some .imageNotFound, st)) ∧
    (UpdateImageTags st none now id tags).2.blobs = st.blobs ∧
    (UpdateImageTags st none now id tags).2.nextId = st.nextId ∧
    (UpdateImageMetadata st none now id md).2.blobs = st.blobs ∧
    (UpdateImageMetadata st none now id md).2.nextId = st.nextId ∧
    List.Forall₂ (fun m m' =>
        m' = m ∨
        (m.imageID = id ∧ m'.imageID = m.imageID ∧
          m'.gridfsID = m.gridfsID ∧ m'.originalName = m.originalName ∧
          m'.contentType = m.contentType ∧ m'.size = m.size ∧
          m'.checksum = m.checksum ∧ m'.metadata = m.metadata ∧
          m'.createdAt = m.createdAt ∧ m'.tags = tags ∧
          m'.updatedAt = now))
      st.catalog (UpdateImageTags st none now id tags).2.catalog ∧
    List.Forall₂ (fun m m' =>
        m' = m ∨
        (m.imageID = id ∧ m'.imageID = m.imageID ∧
          m'.gridfsID = m.gridfsID ∧ m'.originalName = m.originalName ∧
          m'.contentType = m.contentType ∧ m'.size = m.size ∧
          m'.checksum = m.checksum ∧ m'.tags = m.tags ∧
          m'.createdAt = m.createdAt ∧ m'.metadata = md ∧
          m'.updatedAt = now))
      st.catalog (UpdateImageMetadata st none now id md).2.catalog := by
  unfold UpdateImageTags UpdateImageMetadata
  by_cases h : st.catalog.any (fun m => m.imageID == id) = true
  · simp only [h, if_true]
    refine ⟨fun hfalse => absurd hfalse (by decide), trivial, trivial,
      trivial, trivial, ?_, ?_⟩
    · exact setTagsFirst_forall₂ id tags now st.catalog
    · exact setMetadataFirst_forall₂ id md now st.catalog
  · simp only [h, if_false]
    refine ⟨fun _ => ⟨rfl, rfl⟩, rfl, rfl, rfl, rfl, ?_, ?_⟩ <;>
      exact (List.forall₂_same).mpr (fun x _ => Or.inl rfl)

/-- Concrete instance of `update_only_targeted_field`: updating a missing
id on a one-record state returns `NotFound` and leaves the state as it
was. -/
theorem update_only_targeted_field_witness :
    ((StoreState.mk [(0, [7])]
        [ImageMeta.mk "xid-0" 0 "a.png" "image/png" 1 "sha-1" [] [] 1 1]
        1).catalog.any (fun m => m.imageID == "missing") = false) ∧
    UpdateImageTags
        (StoreState.mk [(0, [7])]
          [ImageMeta.mk "xid-0" 0 "a.png" "image/png" 1 "sha-1" [] [] 1 1] 1)
        none 5 "missing" ["t"]
      = (some .imageNotFound,
          StoreState.mk [(0, [7])]
            [ImageMeta.mk "xid-0" 0 "a.png" "image/png" 1 "sha-1" [] [] 1 1]
            1) ∧
    UpdateImageMetadata
        (StoreState.mk [(0, [7])]
          [ImageMeta.mk "xid-0" 0 "a.png" "image/png" 1 "sha-1" [] [] 1 1] 1)
        none 5 "missing" [("k", "v")]
      = (some .imageNotFound,
          StoreState.mk [(0, [7])]
            [ImageMeta.mk "xid-0" 0 "a.png" "image/png" 1 "sha-1" [] [] 1 1]
            1) := by
  have h := update_only_targeted_field
    (StoreState.mk [(0, [7])]
      [ImageMeta.mk "xid-0" 0 "a.png" "image/png" 1 "sha-1" [] [] 1 1] 1)
    5 "missing" ["t"] [("k", "v")]
  exact ⟨by decide, (h.1 (by decide)).1, (h.1 (by decide)).2⟩

/-- Claim C10: when the duplicate-check lookup fails with any backend
error `e`, the store treats the content as absent: it writes a new blob,
inserts a new record, and returns the new id with no error — the lookup
error is never propagated — so the number of records carrying this
fingerprint grows by one even if some already existed. -/
theorem store_lookup_error_proceeds
    (st : StoreState) (now : Nat) (hash detect : List Nat → String)
    (data : List Nat) (fn : String) (tg : List String)
    (md : List (String × String)) (e : GoErr)
    (hvalid : isValidImageType (detect data) = true) :
    (StoreImageFromReader st ⟨some e, none, none, none, none⟩ now hash detect
        data fn tg md).1 = (mkImageID st.nextId, none) ∧
    (StoreImageFromReader st ⟨some e, none, none, none, none⟩ now hash detect
        data fn tg md).2.1.catalog
      = st.catalog ++ [freshMeta st now hash detect data fn tg md] ∧
    (StoreImageFromReader st ⟨some e, none, none, none, none⟩ now hash detect
        data fn tg md).2.1.blobs = st.blobs ++ [(st.nextId, data)] ∧
    ((StoreImageFromReader st ⟨some e, none, none, none, none⟩ now hash
          detect data fn tg md).2.1.catalog.countP
        (fun m => m.checksum == hash data))
      = (st.catalog.countP (fun m => m.checksum == hash data)) + 1 := by
  unfold StoreImageFromReader getImageByChecksumR freshMeta
  simp [hvalid, List.countP_append, List.countP_cons]

/-- Concrete instance of `store_lookup_error_proceeds`: the catalog
already holds a record with the checksum of `[7]`, the lookup errors, and
the call succeeds leaving two records with that checksum. -/
theorem store_lookup_error_proceeds_witness :
    isValidImageType ((fun _ : List Nat => "image/png") [7]) = true ∧
    (StoreImageFromReader
        (StoreState.mk [(0, [7])]
          [ImageMeta.mk "xid-0" 0 "a.png" "image/png" 1 "sha-1" [] [] 1 1] 1)
        ⟨some (.backend "net"), none, none, none, none⟩ 2
        (fun d : List Nat => "sha-" ++ toString d.length)
        (fun _ : List Nat => "image/png") [7] "b.png" [] []).1
      = (mkImageID 1, none) ∧
    ((StoreImageFromReader
        (StoreState.mk [(0, [7])]
          [ImageMeta.mk "xid-0" 0 "a.png" "image/png" 1 "sha-1" [] [] 1 1] 1)
        ⟨some (.backend "net"), none, none, none, none⟩ 2
        (fun d : List Nat => "sha-" ++ toString d.length)
        (fun _ : List Nat => "image/png") [7] "b.png" [] []).2.1.catalog.countP
      (fun m => m.checksum
        == (fun d : List Nat => "sha-" ++ toString d.length) [7]))
      = ((StoreState.mk [(0, [7])]
          [ImageMeta.mk "xid-0" 0 "a.png" "image/png" 1 "sha-1" [] [] 1 1]
          1).catalog.countP
        (fun m => m.checksum
          == (fun d : List Nat => "sha-" ++ toString d.length) [7])) + 1 := by
  have h := store_lookup_error_proceeds
    (StoreState.mk [(0, [7])]
      [ImageMeta.mk "xid-0" 0 "a.png" "image/png" 1 "sha-1" [] [] 1 1] 1)
    2 (fun d : List Nat => "sha-" ++ toString d.length)
    (fun _ : List Nat => "image/png") [7] "b.png" [] [] (.backend "net")
    (by decide)
  exact ⟨by decide, h.1, h.2.2.2⟩

/-- Concrete instance of `cleanup_removes_exactly_orphans`: two stored
assets plus one orphan blob (key `2`, the residue of a crash between
blob write and catalog insert); the sweep reports one orphan removed,
keeps the two referenced blobs, and leaves both records untouched. -/
theorem cleanup_removes_exactly_orphans_witness :
    (CleanupOrphanedFiles
        (StoreState.mk [(0, [7]), (1, [8]), (2, [9])]
          [ImageMeta.mk "xid-0" 0 "a.png" "image/png" 1 "sha-a" [] [] 1 1,
            ImageMeta.mk "xid-1" 1 "b.png" "image/png" 1 "sha-b" [] [] 2 2]
          3) .healthy).1 = 1 ∧
    (CleanupOrphanedFiles
        (StoreState.mk [(0, [7]), (1, [8]), (2, [9])]
          [ImageMeta.mk "xid-0" 0 "a.png" "image/png" 1 "sha-a" [] [] 1 1,
            ImageMeta.mk "xid-1" 1 "b.png" "image/png" 1 "sha-b" [] [] 2 2]
          3) .healthy).2.blobs = [(0, [7]), (1, [8])] ∧
    (CleanupOrphanedFiles
        (StoreState.mk [(0, [7]), (1, [8]), (2, [9])]
          [ImageMeta.mk "xid-0" 0 "a.png" "image/png" 1 "sha-a" [] [] 1 1,
            ImageMeta.mk "xid-1" 1 "b.png" "image/png" 1 "sha-b" [] [] 2 2]
          3) .healthy).2.catalog
      = [ImageMeta.mk "xid-0" 0 "a.png" "image/png" 1 "sha-a" [] [] 1 1,
          ImageMeta.mk "xid-1" 1 "b.png" "image/png" 1 "sha-b" [] [] 2 2] := by
  have h := cleanup_removes_exactly_orphans
    (StoreState.mk [(0, [7]), (1, [8]), (2, [9])]
      [ImageMeta.mk "xid-0" 0 "a.png" "image/png" 1 "sha-a" [] [] 1 1,
        ImageMeta.mk "xid-1" 1 "b.png" "image/png" 1 "sha-b" [] [] 2 2]
      3) .healthy
  exact ⟨h.2.2.2.2, h.2.2.2.1, h.1⟩

/-- Concrete instance of `list_filter_sort_paginate`: with tag filter
`["x"]` only the record tagged `x` is returned, and the unfiltered
listing is sorted by `createdAt` descending. -/
theorem list_filter_sort_paginate_witness :
    (ListImages
        (StoreState.mk []
          [ImageMeta.mk "xid-0" 0 "a.png" "image/png" 1 "sha-a" ["x"] [] 1 1,
            ImageMeta.mk "xid-1" 1 "b.png" "image/png" 1 "sha-b" ["y"] [] 2 2]
          2) ["x"] 0 0).Perm
      [ImageMeta.mk "xid-0" 0 "a.png" "image/png" 1 "sha-a" ["x"] [] 1 1] ∧
    (ListImages
        (StoreState.mk []
          [ImageMeta.mk "xid-0" 0 "a.png" "image/png" 1 "sha-a" ["x"] [] 1 1,
            ImageMeta.mk "xid-1" 1 "b.png" "image/png" 1 "sha-b" ["y"] [] 2 2]
          2) [] 0 0).Sorted createdDesc := by
  have h1 := list_filter_sort_paginate
    (StoreState.mk []
      [ImageMeta.mk "xid-0" 0 "a.png" "image/png" 1 "sha-a" ["x"] [] 1 1,
        ImageMeta.mk "xid-1" 1 "b.png" "image/png" 1 "sha-b" ["y"] [] 2 2]
      2) ["x"] 0 0
  have h2 := list_filter_sort_paginate
    (StoreState.mk []
      [ImageMeta.mk "xid-0" 0 "a.png" "image/png" 1 "sha-a" ["x"] [] 1 1,
        ImageMeta.mk "xid-1" 1 "b.png" "image/png" 1 "sha-b" ["y"] [] 2 2]
      2) [] 0 0
  exact ⟨h1.2.1, h2.1⟩

end XidCommon
